import Mathlib

/-!
Verification of the Streamora backend's content-resolution, caching and
aggregated-search layer.

The JavaScript source is shallowly embedded: route handlers and service
methods become pure Lean functions; the outcomes of awaited external calls
(upstream HTTP fetches, document-store queries, user-profile mutators) are
passed in as `Except Unit _` parameters, and the side effects a handler
performs are returned as an explicit trace list.  JavaScript numbers that
the relevant code only ever adds, subtracts and compares are modelled as
`Int`; JavaScript strings as `String`.
-/

namespace Streamora

/-- Model of the JavaScript expression `x || d` for a numeric `x` that may be
`undefined`/`null` (modelled as `none`): `0`, `null` and `undefined` are
falsy, every other number is truthy. -/
def jsNumOr (x : Option Int) (d : Int) : Int :=
  match x with
  | none => d
  | some v => if v = 0 then d else v

/-- Model of the JavaScript expression `x || d` for a string `x` that may be
`undefined`/`null`: the empty string, `null` and `undefined` are falsy. -/
def jsStrOr (x : Option String) (d : String) : String :=
  match x with
  | none => d
  | some s => if s = "" then d else s

/-- Model of the JavaScript expression `x || y` for two possibly missing
strings, keeping the result possibly missing (used for `item.title || item.name`). -/
def jsStrOrOpt (x y : Option String) : Option String :=
  match x with
  | none => y
  | some s => if s = "" then y else x

/-- Model of JavaScript `s.includes(sub)`: `sub` occurs as a contiguous
substring of `s`. -/
def jsIncludes (s sub : String) : Bool :=
  decide (sub.toList <:+: s.toList)

/-- Model of JavaScript `s.trim()`: strip leading and trailing whitespace
(written over the character list so that it evaluates by reduction). -/
def jsTrim (s : String) : String :=
  ⟨((s.toList.dropWhile Char.isWhitespace).reverse.dropWhile Char.isWhitespace).reverse⟩

/-- Model of JavaScript `a.localeCompare(b)` restricted to its default-locale
behaviour on ASCII strings: primary comparison is case-insensitive; equal
primary keys are tie-broken at the case level (ICU's default collation puts
lowercase before uppercase, hence the reversed code-point comparison). -/
def localeCompare (a b : String) : Int :=
  if a.toLower < b.toLower then -1
  else if b.toLower < a.toLower then 1
  else if b < a then -1
  else if a < b then 1
  else 0

/-- Model of JavaScript `Array.prototype.sort(cmp)` for a consistent numeric
comparator: a stable sort placing `a` before `b` whenever `cmp a b ≤ 0`.
(For a comparator induced by a total preorder every stable sort produces the
same output, so insertion sort represents the engine's sort faithfully.) -/
def jsSortBy (cmp : α → α → Int) (l : List α) : List α :=
  List.insertionSort (fun a b => cmp a b ≤ 0) l

/-!
## Aggregated search (`src/server/routes/search.js`, `router.get('/')`)

The handler fans out to `tmdbService.search` and to the `RadioStation`
document collection, transforms both result sets, optionally filters by
year, sorts with a comparator selected by `sortBy`, and assembles the
response.  The outcomes of the three awaited external calls are inputs to
the embedding; the calls actually issued are returned as a trace.
-/

/-- One raw item of a TMDB `/search/multi` response, restricted to the
fields the handler reads.  The `year` field models the JavaScript
expression `item.release_date || item.first_air_date ? new Date(...).getFullYear() : null`
(calendar parsing of the date strings is elided; no claim concerns it). -/
structure TMDBRaw where
  media_type : String
  title : Option String
  name : Option String
  vote_average : Option Int
  year : Option Int
  popularity : Option Int
  deriving Repr, DecidableEq

/-- A TMDB search response: the page of results plus the provider-reported
overall `total_results` (which counts all pages, not the returned one). -/
structure TMDBSearchResponse where
  results : List TMDBRaw
  total_results : Option Int
  deriving Repr, DecidableEq

/-- A persisted `RadioStation` document, restricted to the fields the
search handler reads. -/
structure RadioDoc where
  name : String
  listeners : Option Int
  deriving Repr, DecidableEq

/-- The transformed item shape pushed into `results.movies` / `results.tv` /
`results.radio` (fields not read by the sort/filter/assembly are elided). -/
structure ResultItem where
  title : Option String
  itemType : String
  rating : Option Int
  year : Option Int
  popularity : Option Int
  listeners : Option Int
  deriving Repr, DecidableEq

/-- The `transformedItem` built for each TMDB result (search.js lines 44-55):
`title: item.title || item.name`, `type: item.media_type`,
`rating: item.vote_average`, `popularity: item.popularity`. -/
def transformTMDBItem (item : TMDBRaw) : ResultItem :=
  { title := jsStrOrOpt item.title item.name
    itemType := item.media_type
    rating := item.vote_average
    year := item.year
    popularity := item.popularity
    listeners := none }

/-- The transformed radio entry (search.js lines 89-98): `title: station.name`,
`type: 'radio'`, `listeners: station.listeners`; no rating/year/popularity. -/
def transformRadioDoc (station : RadioDoc) : ResultItem :=
  { title := some station.name
    itemType := "radio"
    rating := none
    year := none
    popularity := none
    listeners := station.listeners }

/-- The `sortFunction` comparator (search.js lines 111-123), selected by
`sortBy`: `rating` and `year` compare `(b.x || 0) - (a.x || 0)`, `title`
uses `localeCompare` on `(title || '')`, and every other value (including
the default `popularity`) compares `(b.popularity || b.listeners || 0)`
descending. -/
def searchCmp (sortBy : String) (a b : ResultItem) : Int :=
  if sortBy = "rating" then jsNumOr b.rating 0 - jsNumOr a.rating 0
  else if sortBy = "year" then jsNumOr b.year 0 - jsNumOr a.year 0
  else if sortBy = "title" then localeCompare (jsStrOr a.title "") (jsStrOr b.title "")
  else jsNumOr b.popularity (jsNumOr b.listeners 0) - jsNumOr a.popularity (jsNumOr a.listeners 0)

/-- External calls the search handler can issue, in issue order. -/
inductive SearchCall
  | tmdbSearch
  | radioFind
  | radioCount
  deriving Repr, DecidableEq

/-- The body of the JSON success response (search.js lines 140-157):
the merged result list, the `breakdown` counts, and the pagination echo. -/
structure SearchResponse where
  results : List ResultItem
  moviesCount : Nat
  tvCount : Nat
  radioStationsCount : Nat
  total : Int
  currentPage : Nat
  limit : Nat
  hasMore : Bool
  deriving Repr, DecidableEq

/-- The observable outcome of one search request: the early 400 validation
response (`success: false`), a JSON success response, or a thrown
`AppError` (message, HTTP status). -/
inductive SearchOutcome
  | badRequest (message : String)
  | ok (resp : SearchResponse)
  | appError (message : String) (status : Nat)
  deriving Repr, DecidableEq

/-- Filter/sort/assembly tail of the handler (search.js lines 104-157), run
once both branches have delivered their lists: apply the optional `year`
post-filter to movies and tv, sort the two lists, build `allResults`
according to `type`, and assemble the response.  `hasMore` is
`allResults.length === parseInt(limit)`. -/
def assembleSearch (searchType : String) (page limit : Nat) (yearFilter : Option Int)
    (sortBy : String) (movies tv radio : List ResultItem) (total : Int) : SearchResponse :=
  let movies2 := match yearFilter with
    | some y => movies.filter (fun m => m.year = some y)
    | none => movies
  let tv2 := match yearFilter with
    | some y => tv.filter (fun s => s.year = some y)
    | none => tv
  let moviesSorted := jsSortBy (searchCmp sortBy) movies2
  let tvSorted := jsSortBy (searchCmp sortBy) tv2
  let allResults :=
    if searchType = "all" then jsSortBy (searchCmp sortBy) (moviesSorted ++ tvSorted ++ radio)
    else if searchType = "movie" then moviesSorted
    else if searchType = "tv" then tvSorted
    else if searchType = "radio" then radio
    else []
  { results := allResults
    moviesCount := moviesSorted.length
    tvCount := tvSorted.length
    radioStationsCount := radio.length
    total := total
    currentPage := page
    limit := limit
    hasMore := allResults.length = limit }

/-- The aggregated search handler (search.js lines 12-163).  Parameters
`q`, `searchType`, `page`, `limit`, `yearFilter`, `sortBy` are the request
query values (with route defaults applied); `tmdb`, `radioDocs`, `radioCnt`
are the outcomes of `tmdbService.search`, the `RadioStation.find` query and
`RadioStation.countDocuments`.  Control flow follows the source: the
query-length guard returns 400 before any call; a TMDB failure is caught
and only logged (its branch contributes nothing); a failure of either
radio call reaches the outer catch, which rethrows `AppError('Search failed', 500)`. -/
def searchRoute (q : Option String) (searchType : String) (page limit : Nat)
    (yearFilter : Option Int) (sortBy : String)
    (tmdb : Except Unit TMDBSearchResponse)
    (radioDocs : Except Unit (List RadioDoc))
    (radioCnt : Except Unit Int) : SearchOutcome × List SearchCall :=
  let invalid := match q with
    | none => true
    | some query => (jsTrim query).length < 2
  if invalid then
    (.badRequest "Search query must be at least 2 characters long", [])
  else
    let tmdbActive := searchType = "all" || searchType = "movie" || searchType = "tv"
    let tmdbPart :=
      if tmdbActive then
        match tmdb with
        | .ok r =>
            let movies := (r.results.filter (fun item =>
              item.media_type = "movie" && (searchType = "all" || searchType = "movie"))).map
              transformTMDBItem
            let tv := (r.results.filter (fun item =>
              item.media_type = "tv" && (searchType = "all" || searchType = "tv"))).map
              transformTMDBItem
            (movies, tv, jsNumOr r.total_results 0, [SearchCall.tmdbSearch])
        | .error _ => ([], [], 0, [SearchCall.tmdbSearch])
      else ([], [], 0, [])
    let movies := tmdbPart.1
    let tv := tmdbPart.2.1
    let total1 := tmdbPart.2.2.1
    let calls1 := tmdbPart.2.2.2
    let radioActive := searchType = "all" || searchType = "radio"
    if radioActive then
      match radioDocs with
      | .error _ =>
          (.appError "Search failed" 500, calls1 ++ [SearchCall.radioFind])
      | .ok docs =>
          let radio := docs.map transformRadioDoc
          match radioCnt with
          | .error _ =>
              (.appError "Search failed" 500,
                calls1 ++ [SearchCall.radioFind, SearchCall.radioCount])
          | .ok c =>
              (.ok (assembleSearch searchType page limit yearFilter sortBy
                  movies tv radio (total1 + c)),
                calls1 ++ [SearchCall.radioFind, SearchCall.radioCount])
    else
      (.ok (assembleSearch searchType page limit yearFilter sortBy movies tv [] total1),
        calls1)

/-!
## Content resolution (`src/server/routes/content.js`, `router.get('/:type/:id')`)

The handler validates the type, consults the `Content` collection, fetches
from TMDB on a miss or an expired `cacheExpiry`, best-effort enriches with a
YouTube trailer search, upserts, and serves; a logged-in caller gets a
watch-history append.  Every awaited external call's outcome is an input;
the side effects issued are returned as a trace.
-/

/-- A video entry of a TMDB details payload (`videos.results`). -/
structure TMDBVideo where
  key : String
  name : String
  site : String
  videoType : String
  deriving Repr, DecidableEq

/-- A TMDB movie/TV details payload, restricted to the fields the
resolution path reads (`transformMovieData` / `transformTVData` keep many
more, all copied verbatim and not read again by the handler). -/
structure TMDBDetails where
  title : Option String
  videos : List TMDBVideo
  deriving Repr, DecidableEq

/-- A trailer reference as stored on a content document. -/
structure TrailerRef where
  key : String
  name : String
  site : String
  videoType : String
  deriving Repr, DecidableEq

/-- A normalized content document.  `cacheExpiry` is present on persisted
documents; `isStored` records whether the value is a Mongoose document
(which carries the `incrementViews` method) or a plain object freshly built
by `transformMovieData` / `transformTVData` (which does not — the handler
guards the call with `if (content.incrementViews)`). -/
structure ContentDoc where
  title : Option String
  trailers : List TrailerRef
  cacheExpiry : Option Int
  isStored : Bool
  deriving Repr, DecidableEq

/-- One YouTube search result used by the trailer enrichment
(`id.videoId`, `snippet.title`). -/
structure YTItem where
  videoId : String
  snippetTitle : String
  deriving Repr, DecidableEq

/-- `Content.needsUpdate()` (part_006 lines 264-266):
`this.cacheExpiry < new Date()`.  A document without a `cacheExpiry` compares
as not needing an update. -/
def needsUpdate (doc : ContentDoc) (now : Int) : Bool :=
  match doc.cacheExpiry with
  | some e => e < now
  | none => false

/-- The document built from a TMDB details payload
(`transformMovieData` / `transformTVData`, part_005 lines 974-1091):
`trailers` keeps the videos with `type === 'Trailer' && site === 'YouTube'`;
the result is a plain object, so `cacheExpiry` is absent and
`incrementViews` is not available on it. -/
def transformDetails (d : TMDBDetails) : ContentDoc :=
  { title := d.title
    trailers := (d.videos.filter (fun v =>
      v.videoType = "Trailer" && v.site = "YouTube")).map (fun v =>
      { key := v.key, name := v.name, site := v.site, videoType := v.videoType })
    cacheExpiry := none
    isStored := false }

/-- A trailer built from a YouTube search result (content.js lines 448-455). -/
def trailerOfYT (t : YTItem) : TrailerRef :=
  { key := t.videoId, name := t.snippetTitle, site := "YouTube", videoType := "Trailer" }

/-- External calls the content handler can issue, in issue order. -/
inductive Effect
  | storeFind
  | tmdbFetch
  | youtubeSearch
  | storeUpsert
  | incViews
  | historyAppend
  deriving Repr, DecidableEq

/-- The observable outcome of one content request: a served document or a
thrown `AppError` (message, HTTP status). -/
inductive ContentOutcome
  | ok (doc : ContentDoc)
  | appError (message : String) (status : Nat)
  deriving Repr, DecidableEq

/-- The content-details handler (content.js lines 406-509) for the
movie/tv/invalid paths.  Inputs: the request `(typ, id)`; `store`, the
`Content.findOne({tmdbId: id, type})` result; `now`, the clock used by
`needsUpdate`; and the outcomes of the awaited calls — `tmdbDetails`
(`getMovieDetails`/`getTVShowDetails`), `ytSearch` (the trailer lookup,
whose failure is swallowed by an inner catch), `upsertRes`
(`Content.findOneAndUpdate`), `incViewsRes` (`content.incrementViews()`),
and `historyAdd` (`req.user.addToWatchHistory`, awaited inside the outer
try when `loggedIn` and the type is not radio).  Any uncaught error reaches
the outer catch, which rethrows `AppError('Failed to fetch <type> details', 500)`.
The radio arm calls `radioBrowserService.getStationByUuid`, a method the
service in part_005 does not define, so the call itself raises and the
outer catch converts it to the same 500 before any network call happens. -/
def resolveContent (typ _id : String) (store : Option ContentDoc) (now : Int)
    (tmdbDetails : Except Unit TMDBDetails)
    (ytSearch : Except Unit (List YTItem))
    (upsertRes : Except Unit Unit)
    (incViewsRes : Except Unit Unit)
    (loggedIn : Bool)
    (historyAdd : Except Unit Unit) : ContentOutcome × List Effect :=
  if !(typ = "movie" || typ = "tv" || typ = "radio") then
    (.appError "Invalid content type" 400, [])
  else if typ = "radio" then
    (.appError ("Failed to fetch " ++ typ ++ " details") 500, [])
  else
    let fail := ContentOutcome.appError ("Failed to fetch " ++ typ ++ " details") 500
    let afterFind := [Effect.storeFind]
    let fetchPath : Except (ContentOutcome × List Effect) (ContentDoc × List Effect) :=
      match tmdbDetails with
      | .error _ => .error (fail, afterFind ++ [Effect.tmdbFetch])
      | .ok d =>
          let content := transformDetails d
          let enriched :=
            if content.trailers.length = 0 then
              match ytSearch with
              | .error _ => (content, afterFind ++ [Effect.tmdbFetch, Effect.youtubeSearch])
              | .ok ts =>
                  if 0 < ts.length then
                    ({ content with trailers := (ts.take 3).map trailerOfYT },
                      afterFind ++ [Effect.tmdbFetch, Effect.youtubeSearch])
                  else (content, afterFind ++ [Effect.tmdbFetch, Effect.youtubeSearch])
            else (content, afterFind ++ [Effect.tmdbFetch])
          match upsertRes with
          | .error _ => .error (fail, enriched.2 ++ [Effect.storeUpsert])
          | .ok _ => .ok (enriched.1, enriched.2 ++ [Effect.storeUpsert])
    let resolved : Except (ContentOutcome × List Effect) (ContentDoc × List Effect) :=
      match store with
      | none => fetchPath
      | some doc => if needsUpdate doc now then fetchPath else .ok (doc, afterFind)
    match resolved with
    | .error e => e
    | .ok (content, effects) =>
        let served : Except (ContentOutcome × List Effect) (ContentDoc × List Effect) :=
          if content.isStored then
            match incViewsRes with
            | .error _ => .error (fail, effects ++ [Effect.incViews])
            | .ok _ => .ok (content, effects ++ [Effect.incViews])
          else .ok (content, effects)
        match served with
        | .error e => e
        | .ok (content2, effects2) =>
            if loggedIn then
              match historyAdd with
              | .error _ => (fail, effects2 ++ [Effect.historyAppend])
              | .ok _ => (.ok content2, effects2 ++ [Effect.historyAppend])
            else (.ok content2, effects2)

/-!
## TMDB in-memory cache (`TMDBService.getCachedOrFetch`, part_005 lines 373-395)

A `Map` from string keys to `{data, timestamp}`, with a 5-minute timeout.
The map is modelled as an association list whose `set` removes any previous
binding for the key.
-/

/-- One cache entry: the stored payload and the `Date.now()` at which it was
stored. -/
structure CacheEntry (α : Type) where
  data : α
  timestamp : Int
  deriving Repr, DecidableEq

/-- Association-list lookup with decidable key equality (models `Map.get`
and `NodeCache.get`-style key lookup). -/
def assocGet [DecidableEq κ] : List (κ × β) → κ → Option β
  | [], _ => none
  | (k, v) :: rest, key => if k = key then some v else assocGet rest key

/-- Association-list overwrite (models `Map.set` / `NodeCache.set`:
unconditionally replaces any prior entry for the key). -/
def assocSet [DecidableEq κ] (c : List (κ × β)) (key : κ) (v : β) : List (κ × β) :=
  (key, v) :: c.filter (fun p => p.1 ≠ key)

/-- The result of one `getCachedOrFetch` run: the value or the propagated
error, the cache state afterwards, and whether the fetch function was
invoked at all. -/
structure CachedFetchResult (α : Type) where
  result : Except Unit α
  cache : List (String × CacheEntry α)
  attempted : Bool
  deriving Repr

/-- `TMDBService.getCachedOrFetch(cacheKey, fetchFunction)` (part_005 lines
373-395): a fresh entry (`now - timestamp < ttl`, ttl = 5 minutes) is served
directly; otherwise the fetch is attempted, a success is stored and
returned, and a failure falls back to the previously cached data when any
exists — only when the key was never cached does the error propagate. -/
def getCachedOrFetch (cache : List (String × CacheEntry α)) (now ttl : Int)
    (key : String) (fetch : Except Unit α) : CachedFetchResult α :=
  match assocGet cache key with
  | some e =>
      if now - e.timestamp < ttl then
        { result := .ok e.data, cache := cache, attempted := false }
      else
        match fetch with
        | .ok d =>
            { result := .ok d, cache := assocSet cache key ⟨d, now⟩, attempted := true }
        | .error _ =>
            { result := .ok e.data, cache := cache, attempted := true }
  | none =>
      match fetch with
      | .ok d =>
          { result := .ok d, cache := assocSet cache key ⟨d, now⟩, attempted := true }
      | .error er =>
          { result := .error er, cache := cache, attempted := true }

/-!
## Radio Browser service (`RadioBrowserService`, part_005 lines 1-347)

`NodeCache` with `stdTTL: 300` seconds: unlike the TMDB map, an entry whose
TTL has elapsed is no longer returned by `get` (NodeCache evicts expired
entries), so the listing methods fall through to the network and a network
failure is rethrown.  The source builds string cache keys
(`popular_stations_<limit>`, `country_stations_<country>_<limit>`,
`genre_stations_<genre>_<limit>`, `search_stations_<query>_<limit>`),
which are injective in the operation and its arguments; they are modelled
as an inductive key type with the same injectivity.
-/

/-- A raw station as delivered by the `radio-browser` client, restricted to
the fields the service reads. -/
structure Station where
  name : String
  url_resolved : Option String
  bitrate : Option Int
  clickcount : Option Int
  deriving Repr, DecidableEq

/-- A station after `addStreamQuality`: the raw fields spread, plus the
`quality` tag and the `streamUrl` copy of `url_resolved`. -/
structure StationQ where
  name : String
  url_resolved : Option String
  bitrate : Option Int
  clickcount : Option Int
  quality : String
  streamUrl : Option String
  deriving Repr, DecidableEq

/-- `filterValidStations` predicate (part_005 lines 34-41):
`station.url_resolved && station.url_resolved.trim() !== '' &&
station.url_resolved !== 'null' && !station.url_resolved.includes('null')`
(`undefined`, `null` and the empty string are falsy). -/
def validStation (s : Station) : Bool :=
  match s.url_resolved with
  | none => false
  | some u => u ≠ "" && jsTrim u ≠ "" && u ≠ "null" && !(jsIncludes u "null")

/-- `filterValidStations` (part_005 lines 34-41). -/
def filterValidStations (stations : List Station) : List Station :=
  stations.filter validStation

/-- Model of the JavaScript comparison `x > n` for a numeric `x` that may be
`undefined`/`null`: a missing operand makes the comparison false. -/
def jsGtNum (x : Option Int) (n : Int) : Bool :=
  match x with
  | some v => n < v
  | none => false

/-- The quality tag of `addStreamQuality` (part_005 line 47):
`bitrate > 128 ? 'high' : bitrate > 64 ? 'medium' : 'low'` (a missing
bitrate compares as not greater). -/
def qualityOf (bitrate : Option Int) : String :=
  if jsGtNum bitrate 128 then "high"
  else if jsGtNum bitrate 64 then "medium"
  else "low"

/-- `addStreamQuality` (part_005 lines 44-50). -/
def addStreamQuality (stations : List Station) : List StationQ :=
  stations.map (fun s =>
    { name := s.name
      url_resolved := s.url_resolved
      bitrate := s.bitrate
      clickcount := s.clickcount
      quality := qualityOf s.bitrate
      streamUrl := s.url_resolved })

/-- The shared body of the four listing methods (part_005 lines 53-186):
`filterValidStations(stations)` then `addStreamQuality(validStations.slice(0, limit))`.
Each method fetches `limit * 2` stations and applies this to the result. -/
def processStations (stations : List Station) (limit : Nat) : List StationQ :=
  addStreamQuality ((filterValidStations stations).take limit)

/-- The cache keys the four listing methods build (as strings in the
source; see the section comment). -/
inductive RadioKey
  | popular (limit : Nat)
  | country (countryCode : String) (limit : Nat)
  | genre (tag : String) (limit : Nat)
  | search (query : String) (limit : Nat)
  deriving Repr, DecidableEq

/-- The `limit` each key was built with. -/
def RadioKey.keyLimit : RadioKey → Nat
  | .popular l => l
  | .country _ l => l
  | .genre _ l => l
  | .search _ l => l

/-- A NodeCache state for the listing methods. -/
abbrev RadioCache := List (RadioKey × CacheEntry (List StationQ))

/-- `NodeCache.get` with `stdTTL` 300 seconds: an entry whose TTL has
elapsed is treated as absent (NodeCache evicts it). -/
def nodeCacheGet (cache : RadioCache) (now : Int) (key : RadioKey) :
    Option (List StationQ) :=
  match assocGet cache key with
  | some e => if now - e.timestamp < 300 then some e.data else none
  | none => none

/-- The shared control flow of the four listing methods (part_005 lines
53-186): rate-limit check (its counter is not claim-relevant and elided),
cache probe, network fetch, filter + slice + quality, cache store; a
network failure is rethrown as a generic failure. -/
def radioListFetch (key : RadioKey) (limit : Nat) (cache : RadioCache) (now : Int)
    (upstream : Except Unit (List Station)) :
    Except Unit (List StationQ) × RadioCache × Bool :=
  match nodeCacheGet cache now key with
  | some v => (.ok v, cache, false)
  | none =>
      match upstream with
      | .ok stations =>
          let out := processStations stations limit
          (.ok out, assocSet cache key ⟨out, now⟩, true)
      | .error _ => (.error (), cache, true)

/-- `RadioBrowserService.getPopularStations(limit)` (part_005 lines 53-84). -/
def getPopularStations (limit : Nat) (cache : RadioCache) (now : Int)
    (upstream : Except Unit (List Station)) :
    Except Unit (List StationQ) × RadioCache × Bool :=
  radioListFetch (.popular limit) limit cache now upstream

/-- `RadioBrowserService.getStationsByCountry(country, limit)` (part_005 lines 86-118). -/
def getStationsByCountry (countryCode : String) (limit : Nat) (cache : RadioCache)
    (now : Int) (upstream : Except Unit (List Station)) :
    Except Unit (List StationQ) × RadioCache × Bool :=
  radioListFetch (.country countryCode limit) limit cache now upstream

/-- `RadioBrowserService.getStationsByGenre(genre, limit)` (part_005 lines 120-152). -/
def getStationsByGenre (tag : String) (limit : Nat) (cache : RadioCache)
    (now : Int) (upstream : Except Unit (List Station)) :
    Except Unit (List StationQ) × RadioCache × Bool :=
  radioListFetch (.genre tag limit) limit cache now upstream

/-- `RadioBrowserService.searchStations(query, limit)` (part_005 lines 154-186). -/
def searchStations (query : String) (limit : Nat) (cache : RadioCache)
    (now : Int) (upstream : Except Unit (List Station)) :
    Except Unit (List StationQ) × RadioCache × Bool :=
  radioListFetch (.search query limit) limit cache now upstream

/-- The invariant C9 asserts of every station a listing method returns. -/
def stationOK (s : StationQ) : Prop :=
  (∃ u, s.url_resolved = some u ∧ s.streamUrl = some u ∧
    u ≠ "" ∧ jsTrim u ≠ "" ∧ u ≠ "null" ∧ jsIncludes u "null" = false) ∧
  (s.quality = "high" ↔ ∃ b, s.bitrate = some b ∧ 128 < b) ∧
  (s.quality = "medium" ↔ ∃ b, s.bitrate = some b ∧ 64 < b ∧ b ≤ 128) ∧
  (s.quality = "low" ↔ ¬∃ b, s.bitrate = some b ∧ 64 < b)

/-- Well-formedness of a radio cache state: every stored value is the
filtered/sliced/quality-tagged image of some upstream list under the limit
its key was built with. -/
def RadioCacheWF (cache : RadioCache) : Prop :=
  ∀ k e, assocGet cache k = some e →
    ∃ stations, e.data = processStations stations k.keyLimit

/-!
## Concrete inputs and response projections used by the witnesses and counterexamples
-/

/-- A TMDB movie search hit with a given rating and popularity. -/
def demoMovie (title : String) (rating popularity : Int) : TMDBRaw :=
  { media_type := "movie", title := some title, name := none,
    vote_average := some rating, year := some 2001, popularity := some popularity }

/-- A TMDB tv search hit with a given rating and popularity. -/
def demoTV (name : String) (rating popularity : Int) : TMDBRaw :=
  { media_type := "tv", title := none, name := some name,
    vote_average := some rating, year := some 2002, popularity := some popularity }

/-- The spec's merge/sort example: movies rated 3 and 9 and a tv show rated 5. -/
def demoRatingResponse : TMDBSearchResponse :=
  { results := [demoMovie "Alpha" 3 10, demoMovie "Beta" 9 20, demoTV "Gamma" 5 15],
    total_results := some 3 }

/-- Five movie hits, for the pagination example (limit 2, 5 merged results). -/
def demoFiveMovies : TMDBSearchResponse :=
  { results := [demoMovie "A" 1 50, demoMovie "B" 2 40, demoMovie "C" 3 30,
      demoMovie "D" 4 20, demoMovie "E" 5 10],
    total_results := some 5 }

/-- One movie hit but a provider-reported overall total of 5 (TMDB's
`total_results` counts all pages). -/
def demoOneMovieTotalFive : TMDBSearchResponse :=
  { results := [demoMovie "Solo" 7 10], total_results := some 5 }

/-- A persisted content document whose `cacheExpiry` is still in the future
at clock 50. -/
def demoStoredFresh : ContentDoc :=
  { title := some "Stored Movie", trailers := [], cacheExpiry := some 100, isStored := true }

/-- A persisted content document whose `cacheExpiry` elapsed before clock 1. -/
def demoStoredStale : ContentDoc :=
  { title := some "Stale Movie", trailers := [], cacheExpiry := some 0, isStored := true }

/-- A raw radio station with a usable stream URL and a 192 kbps bitrate. -/
def demoStationGood : Station :=
  { name := "Radio One", url_resolved := some "http://stream.example/one",
    bitrate := some 192, clickcount := some 7 }

/-- A raw radio station whose resolved URL is the literal string "null". -/
def demoStationNull : Station :=
  { name := "Broken", url_resolved := some "null", bitrate := some 96, clickcount := none }

/-- A raw radio station with a 96 kbps bitrate (medium quality band). -/
def demoStationMedium : Station :=
  { name := "Radio Two", url_resolved := some "http://stream.example/two",
    bitrate := some 96, clickcount := none }

/-- The upstream list used by the radio witnesses. -/
def demoStations : List Station :=
  [demoStationGood, demoStationNull, demoStationMedium]

/-- A quality-tagged station as previously stored in the radio cache. -/
def demoCachedStation : StationQ :=
  { name := "Radio One", url_resolved := some "http://stream.example/one",
    bitrate := some 192, clickcount := some 7, quality := "high",
    streamUrl := some "http://stream.example/one" }

/-- A radio cache holding one entry for `popular_stations_5`, stored at
clock 0 (expired by clock 400, TTL being 300). -/
def demoExpiredRadioCache : RadioCache :=
  [(RadioKey.popular 5, { data := [demoCachedStation], timestamp := 0 })]

/-- The response produced for the pagination example: `limit = 2`, five
merged movie results, no radio results. -/
def demoC2Resp : SearchResponse :=
  assembleSearch "all" 1 2 none "popularity"
    ((demoFiveMovies.results.filter (fun item => item.media_type = "movie")).map
      transformTMDBItem)
    ((demoFiveMovies.results.filter (fun item => item.media_type = "tv")).map
      transformTMDBItem)
    [] (jsNumOr demoFiveMovies.total_results 0 + 0)

/-- The response produced for the breakdown-total example: one movie hit,
provider total 5, no radio. -/
def demoC6Resp : SearchResponse :=
  assembleSearch "all" 1 20 none "popularity"
    ((demoOneMovieTotalFive.results.filter (fun item => item.media_type = "movie")).map
      transformTMDBItem)
    ((demoOneMovieTotalFive.results.filter (fun item => item.media_type = "tv")).map
      transformTMDBItem)
    [] (jsNumOr demoOneMovieTotalFive.total_results 0 + 0)

/-- The response produced for the rating-sort example (movies rated 3 and 9,
tv rated 5). -/
def demoC8Resp : SearchResponse :=
  assembleSearch "all" 1 20 none "rating"
    ((demoRatingResponse.results.filter (fun item => item.media_type = "movie")).map
      transformTMDBItem)
    ((demoRatingResponse.results.filter (fun item => item.media_type = "tv")).map
      transformTMDBItem)
    [] (jsNumOr demoRatingResponse.total_results 0 + 0)

/-- Projection: the ratings of a success response's merged result list. -/
def outcomeRatings : SearchOutcome → Option (List (Option Int))
  | .ok resp => some (resp.results.map (fun i => i.rating))
  | _ => none

/-- Projection: merged-list length and `hasMore` of a success response. -/
def outcomePage : SearchOutcome → Option (Nat × Bool)
  | .ok resp => some (resp.results.length, resp.hasMore)
  | _ => none

/-- Projection: the `breakdown` block of a success response. -/
def outcomeBreakdown : SearchOutcome → Option (Nat × Nat × Nat × Int)
  | .ok resp => some (resp.moviesCount, resp.tvCount, resp.radioStationsCount, resp.total)
  | _ => none

/-!
## Helper lemmas
-/

theorem jsSortBy_sorted (cmp : α → α → Int)
    (total : ∀ a b, cmp a b ≤ 0 ∨ cmp b a ≤ 0)
    (trans : ∀ a b c, cmp a b ≤ 0 → cmp b c ≤ 0 → cmp a c ≤ 0)
    (l : List α) : (jsSortBy cmp l).Pairwise (fun a b => cmp a b ≤ 0) := by
  haveI : IsTotal α (fun a b => cmp a b ≤ 0) := ⟨total⟩
  haveI : IsTrans α (fun a b => cmp a b ≤ 0) := ⟨fun a b c => trans a b c⟩
  exact List.sorted_insertionSort _ l

theorem jsSortBy_perm (cmp : α → α → Int) (l : List α) :
    List.Perm (jsSortBy cmp l) l :=
  List.perm_insertionSort _ l

theorem jsSortBy_length (cmp : α → α → Int) (l : List α) :
    (jsSortBy cmp l).length = l.length :=
  (jsSortBy_perm cmp l).length_eq

theorem localeCompare_nonpos_iff (a b : String) :
    localeCompare a b ≤ 0 ↔
      (a.toLower < b.toLower ∨ (a.toLower = b.toLower ∧ b ≤ a)) := by
  unfold localeCompare
  split_ifs with h1 h2 h3 h4
  · simp [h1]
  · have hne : a.toLower ≠ b.toLower := ne_of_gt h2
    simp [h1, hne]
  · have he : a.toLower = b.toLower := le_antisymm (le_of_not_lt h2) (le_of_not_lt h1)
    simp [he, le_of_lt h3]
  · have he : a.toLower = b.toLower := le_antisymm (le_of_not_lt h2) (le_of_not_lt h1)
    have hnle : ¬b ≤ a := not_le_of_lt h4
    simp [he, hnle]
  · have he : a.toLower = b.toLower := le_antisymm (le_of_not_lt h2) (le_of_not_lt h1)
    have hba : b ≤ a := le_of_not_lt h4
    simp [he, hba]

theorem localeCompare_le_total (a b : String) :
    localeCompare a b ≤ 0 ∨ localeCompare b a ≤ 0 := by
  rw [localeCompare_nonpos_iff, localeCompare_nonpos_iff]
  rcases lt_trichotomy a.toLower b.toLower with h | h | h
  · exact Or.inl (Or.inl h)
  · rcases le_total b a with h2 | h2
    · exact Or.inl (Or.inr ⟨h, h2⟩)
    · exact Or.inr (Or.inr ⟨h.symm, h2⟩)
  · exact Or.inr (Or.inl h)

theorem localeCompare_le_trans (a b c : String) :
    localeCompare a b ≤ 0 → localeCompare b c ≤ 0 → localeCompare a c ≤ 0 := by
  rw [localeCompare_nonpos_iff, localeCompare_nonpos_iff, localeCompare_nonpos_iff]
  rintro (hab | ⟨hab, hba⟩) (hbc | ⟨hbc, hcb⟩)
  · exact Or.inl (lt_trans hab hbc)
  · exact Or.inl (hbc ▸ hab)
  · exact Or.inl (hab ▸ hbc)
  · exact Or.inr ⟨hab.trans hbc, hcb.trans hba⟩

theorem localeCompare_le_means_toLower_le (a b : String) :
    localeCompare a b ≤ 0 → a.toLower ≤ b.toLower := by
  rw [localeCompare_nonpos_iff]
  rintro (h | ⟨h, _⟩)
  · exact le_of_lt h
  · exact le_of_eq h

theorem searchCmp_total (sb : String) (a b : ResultItem) :
    searchCmp sb a b ≤ 0 ∨ searchCmp sb b a ≤ 0 := by
  unfold searchCmp
  split_ifs with h1 h2 h3
  · omega
  · omega
  · exact localeCompare_le_total _ _
  · omega

theorem searchCmp_trans (sb : String) (a b c : ResultItem) :
    searchCmp sb a b ≤ 0 → searchCmp sb b c ≤ 0 → searchCmp sb a c ≤ 0 := by
  unfold searchCmp
  split_ifs with h1 h2 h3
  · omega
  · omega
  · exact localeCompare_le_trans _ _ _
  · omega

theorem searchCmp_sorted (sb : String) (l : List ResultItem) :
    (jsSortBy (searchCmp sb) l).Pairwise (fun a b => searchCmp sb a b ≤ 0) :=
  jsSortBy_sorted _ (searchCmp_total sb) (searchCmp_trans sb) l

theorem assocGet_filter_ne [DecidableEq κ] (c : List (κ × β)) (key k : κ) (h : k ≠ key) :
    assocGet (c.filter (fun p => p.1 ≠ key)) k = assocGet c k := by
  induction c with
  | nil => rfl
  | cons p rest ih =>
      simp only [ne_eq, decide_not] at ih ⊢
      by_cases hp : p.1 = key
      · have hpk : ¬p.1 = k := by
          rw [hp]
          exact fun hh => h hh.symm
        have hky : ¬key = k := fun hh => h hh.symm
        simp [List.filter_cons, hp, assocGet, hpk, hky, ih]
      · simp [List.filter_cons, hp, assocGet, ih]

theorem searchRoute_ok_all (s : String) (page limit : Nat) (yf : Option Int) (sb : String)
    (r : TMDBSearchResponse) (docs : List RadioDoc) (c : Int)
    (hlen : ¬(jsTrim s).length < 2) :
    searchRoute (some s) "all" page limit yf sb (.ok r) (.ok docs) (.ok c) =
      (.ok (assembleSearch "all" page limit yf sb
          ((r.results.filter (fun item => item.media_type = "movie")).map transformTMDBItem)
          ((r.results.filter (fun item => item.media_type = "tv")).map transformTMDBItem)
          (docs.map transformRadioDoc) (jsNumOr r.total_results 0 + c)),
        [SearchCall.tmdbSearch, SearchCall.radioFind, SearchCall.radioCount]) := by
  unfold searchRoute
  simp [hlen]

theorem searchRoute_ok_all_tmdbFail (s : String) (page limit : Nat) (yf : Option Int)
    (sb : String) (docs : List RadioDoc) (c : Int)
    (hlen : ¬(jsTrim s).length < 2) :
    searchRoute (some s) "all" page limit yf sb (.error ()) (.ok docs) (.ok c) =
      (.ok (assembleSearch "all" page limit yf sb [] []
          (docs.map transformRadioDoc) (0 + c)),
        [SearchCall.tmdbSearch, SearchCall.radioFind, SearchCall.radioCount]) := by
  unfold searchRoute
  simp [hlen]

theorem searchRoute_radioFail (s : String) (page limit : Nat) (yf : Option Int)
    (sb : String) (t : Except Unit TMDBSearchResponse) (rc : Except Unit Int)
    (hlen : ¬(jsTrim s).length < 2) :
    searchRoute (some s) "all" page limit yf sb t (.error ()) rc =
      (.appError "Search failed" 500, [SearchCall.tmdbSearch, SearchCall.radioFind]) := by
  unfold searchRoute
  cases t <;> simp [hlen]

theorem searchRoute_ok_shape {q : Option String} {st : String} {page limit : Nat}
    {yf : Option Int} {sb : String} {t : Except Unit TMDBSearchResponse}
    {rd : Except Unit (List RadioDoc)} {rc : Except Unit Int} {resp : SearchResponse}
    {calls : List SearchCall}
    (h : searchRoute q st page limit yf sb t rd rc = (.ok resp, calls)) :
    ∃ movies tv radio total,
      resp = assembleSearch st page limit yf sb movies tv radio total := by
  rcases q with _ | s
  · exact absurd h (by simp [searchRoute])
  · by_cases hs : (jsTrim s).length < 2
    · exact absurd h (by simp [searchRoute, hs])
    · have hs' : ¬(decide ((jsTrim s).length < 2) = true) := by simpa using hs
      unfold searchRoute at h
      dsimp only at h
      rw [if_neg hs'] at h
      rcases rd with _ | docs
      · dsimp only at h
        split at h
        · simp at h
        · simp only [Prod.mk.injEq, SearchOutcome.ok.injEq] at h
          exact ⟨_, _, _, _, h.1.symm⟩
      · rcases rc with _ | c
        · dsimp only at h
          split at h
          · simp at h
          · simp only [Prod.mk.injEq, SearchOutcome.ok.injEq] at h
            exact ⟨_, _, _, _, h.1.symm⟩
        · dsimp only at h
          split at h
          · simp only [Prod.mk.injEq, SearchOutcome.ok.injEq] at h
            exact ⟨_, _, _, _, h.1.symm⟩
          · simp only [Prod.mk.injEq, SearchOutcome.ok.injEq] at h
            exact ⟨_, _, _, _, h.1.symm⟩

theorem assembleSearch_all_len (page limit : Nat) (yf : Option Int) (sb : String)
    (movies tv radio : List ResultItem) (total : Int) :
    (assembleSearch "all" page limit yf sb movies tv radio total).results.length =
      (assembleSearch "all" page limit yf sb movies tv radio total).moviesCount +
      (assembleSearch "all" page limit yf sb movies tv radio total).tvCount +
      (assembleSearch "all" page limit yf sb movies tv radio total).radioStationsCount := by
  simp [assembleSearch, jsSortBy_length]
  omega

theorem assembleSearch_hasMore (st : String) (page limit : Nat) (yf : Option Int)
    (sb : String) (movies tv radio : List ResultItem) (total : Int) :
    ((assembleSearch st page limit yf sb movies tv radio total).hasMore = true ↔
      (assembleSearch st page limit yf sb movies tv radio total).results.length = limit) := by
  simp [assembleSearch]

theorem assembleSearch_all_results (page limit : Nat) (yf : Option Int) (sb : String)
    (movies tv radio : List ResultItem) (total : Int) :
    (assembleSearch "all" page limit yf sb movies tv radio total).results =
      jsSortBy (searchCmp sb)
        (jsSortBy (searchCmp sb) (match yf with
            | some y => movies.filter (fun m => m.year = some y)
            | none => movies) ++
         jsSortBy (searchCmp sb) (match yf with
            | some y => tv.filter (fun s => s.year = some y)
            | none => tv) ++ radio) := by
  simp [assembleSearch]

theorem searchRoute_ok_results_sorted {q : Option String} {page limit : Nat}
    {yf : Option Int} {sb : String} {t : Except Unit TMDBSearchResponse}
    {rd : Except Unit (List RadioDoc)} {rc : Except Unit Int} {resp : SearchResponse}
    {calls : List SearchCall}
    (h : searchRoute q "all" page limit yf sb t rd rc = (.ok resp, calls)) :
    resp.results.Pairwise (fun a b => searchCmp sb a b ≤ 0) := by
  obtain ⟨movies, tv, radio, total, rfl⟩ := searchRoute_ok_shape h
  rw [assembleSearch_all_results]
  exact searchCmp_sorted sb _

theorem searchCmp_rating_le {a b : ResultItem} (h : searchCmp "rating" a b ≤ 0) :
    jsNumOr b.rating 0 ≤ jsNumOr a.rating 0 := by
  unfold searchCmp at h
  rw [if_pos rfl] at h
  omega

theorem searchCmp_year_le {a b : ResultItem} (h : searchCmp "year" a b ≤ 0) :
    jsNumOr b.year 0 ≤ jsNumOr a.year 0 := by
  unfold searchCmp at h
  rw [if_neg (by decide), if_pos rfl] at h
  omega

theorem searchCmp_title_le {a b : ResultItem} (h : searchCmp "title" a b ≤ 0) :
    (jsStrOr a.title "").toLower ≤ (jsStrOr b.title "").toLower := by
  unfold searchCmp at h
  rw [if_neg (by decide), if_neg (by decide), if_pos rfl] at h
  exact localeCompare_le_means_toLower_le _ _ h

theorem searchCmp_popularity_le {a b : ResultItem} (h : searchCmp "popularity" a b ≤ 0) :
    jsNumOr b.popularity (jsNumOr b.listeners 0) ≤
      jsNumOr a.popularity (jsNumOr a.listeners 0) := by
  unfold searchCmp at h
  rw [if_neg (by decide), if_neg (by decide), if_neg (by decide)] at h
  omega

/-!
## Claim theorems
-/

/-- C10: for every aggregated search whose query parameter is absent or has
a trimmed length below 2, the handler answers 400 with `success: false`
(the `badRequest` outcome) and issues no upstream or store call at all, so
an empty-but-successful result is never produced for such a query. -/
theorem c10_short_query_rejected (q : Option String) (st : String) (page limit : Nat)
    (yf : Option Int) (sb : String) (t : Except Unit TMDBSearchResponse)
    (rd : Except Unit (List RadioDoc)) (rc : Except Unit Int)
    (h : q = none ∨ ∃ s, q = some s ∧ (jsTrim s).length < 2) :
    searchRoute q st page limit yf sb t rd rc =
      (.badRequest "Search query must be at least 2 characters long", []) := by
  rcases h with rfl | ⟨s, rfl, hs⟩
  · rfl
  · unfold searchRoute
    simp [hs]

theorem c10_short_query_rejected_witness :
    searchRoute (some "a") "all" 1 20 none "popularity"
      (.ok demoRatingResponse) (.ok []) (.ok 0) =
      (.badRequest "Search query must be at least 2 characters long", []) :=
  c10_short_query_rejected _ _ _ _ _ _ _ _ _ (Or.inr ⟨"a", rfl, by decide⟩)

/-- C2 counterexample: with `limit = 2` and five merged results, page 1 does
not return the first two items with `hasMore = true` — the handler returns
all five merged items with `hasMore = false`, and page 3 returns the same
five items instead of only the fifth. -/
theorem c2_pagination_counterexample :
    outcomePage (searchRoute (some "ab") "all" 1 2 none "popularity"
      (.ok demoFiveMovies) (.ok []) (.ok 0)).1 = some (5, false) ∧
    outcomePage (searchRoute (some "ab") "all" 3 2 none "popularity"
      (.ok demoFiveMovies) (.ok []) (.ok 0)).1 = some (5, false) := by
  constructor <;> rfl

/-- C2 amended: no offset/limit window is applied to the merged, sorted
sequence — pagination is delegated per branch (the TMDB `page` parameter and
the radio query's skip/limit shape its inputs) and the response returns the
whole merged list, whose length is the sum of the three breakdown counts;
`hasMore` is true exactly when that merged list's length equals `limit`,
and the pagination block echoes the requested page and limit. -/
theorem c2_pagination_amended (s : String) (page limit : Nat) (yf : Option Int)
    (sb : String) (r : TMDBSearchResponse) (docs : List RadioDoc) (c : Int)
    (resp : SearchResponse) (calls : List SearchCall)
    (hq : ¬(jsTrim s).length < 2)
    (h : searchRoute (some s) "all" page limit yf sb (.ok r) (.ok docs) (.ok c) =
      (.ok resp, calls)) :
    resp.results.length = resp.moviesCount + resp.tvCount + resp.radioStationsCount ∧
    (resp.hasMore = true ↔ resp.results.length = limit) ∧
    resp.currentPage = page ∧ resp.limit = limit := by
  rw [searchRoute_ok_all s page limit yf sb r docs c hq] at h
  simp only [Prod.mk.injEq, SearchOutcome.ok.injEq] at h
  obtain ⟨hresp, -⟩ := h
  subst hresp
  refine ⟨assembleSearch_all_len _ _ _ _ _ _ _ _, assembleSearch_hasMore _ _ _ _ _ _ _ _ _,
    ?_, ?_⟩ <;> simp [assembleSearch]

theorem c2_pagination_amended_witness :
    demoC2Resp.results.length =
      demoC2Resp.moviesCount + demoC2Resp.tvCount + demoC2Resp.radioStationsCount ∧
    (demoC2Resp.hasMore = true ↔ demoC2Resp.results.length = 2) ∧
    demoC2Resp.currentPage = 1 ∧ demoC2Resp.limit = 2 :=
  c2_pagination_amended "ab" 1 2 none "popularity" demoFiveMovies [] 0 demoC2Resp
    [SearchCall.tmdbSearch, SearchCall.radioFind, SearchCall.radioCount]
    (by decide) (by decide)

/-- C5 counterexample: a failure of the radio-directory branch alone makes
the whole search request fail with `AppError('Search failed', 500)` instead
of contributing an empty result set. -/
theorem c5_branch_failure_counterexample :
    (searchRoute (some "ab") "all" 1 20 none "popularity"
      (.ok demoOneMovieTotalFive) (.error ()) (.ok 0)).1 =
      .appError "Search failed" 500 := by
  rfl

/-- C5 amended: the two fan-out branches degrade asymmetrically — a failure
of the metadata-provider (TMDB) search is caught and contributes empty
movie/tv lists while the radio results are still returned successfully, but
a failure of the radio-directory query reaches the outer catch and fails
the whole request with a 500. -/
theorem c5_branch_failure_amended :
    (∀ s page limit yf sb docs c, ¬(jsTrim s).length < 2 →
      searchRoute (some s) "all" page limit yf sb (.error ()) (.ok docs) (.ok c) =
        (.ok (assembleSearch "all" page limit yf sb [] []
            (docs.map transformRadioDoc) (0 + c)),
          [SearchCall.tmdbSearch, SearchCall.radioFind, SearchCall.radioCount])) ∧
    (∀ s page limit yf sb t rc, ¬(jsTrim s).length < 2 →
      searchRoute (some s) "all" page limit yf sb t (.error ()) rc =
        (.appError "Search failed" 500, [SearchCall.tmdbSearch, SearchCall.radioFind])) :=
  ⟨fun s page limit yf sb docs c h =>
      searchRoute_ok_all_tmdbFail s page limit yf sb docs c h,
    fun s page limit yf sb t rc h =>
      searchRoute_radioFail s page limit yf sb t rc h⟩

theorem c5_branch_failure_amended_witness :
    searchRoute (some "ab") "all" 1 20 none "popularity" (.error ()) (.ok []) (.ok 3) =
      (.ok (assembleSearch "all" 1 20 none "popularity" [] [] [] (0 + 3)),
        [SearchCall.tmdbSearch, SearchCall.radioFind, SearchCall.radioCount]) :=
  c5_branch_failure_amended.1 "ab" 1 20 none "popularity" [] 3 (by decide)

/-- C6 counterexample: a response whose `breakdown` is
`movies = 1, tv = 0, radio = 0` but `total = 5` (TMDB's reported
`total_results` counts all pages), so `total ≠ movies + tv + radio`. -/
theorem c6_total_counterexample :
    outcomeBreakdown (searchRoute (some "ab") "all" 1 20 none "popularity"
      (.ok demoOneMovieTotalFive) (.ok []) (.ok 0)).1 = some (1, 0, 0, 5) ∧
    ¬((5 : Int) = ((1 : Nat) : Int) + ((0 : Nat) : Int) + ((0 : Nat) : Int)) := by
  constructor
  · rfl
  · decide

/-- C6 amended: the reported `total` is the sum of TMDB's provider-reported
`total_results` (`|| 0`) and the radio `countDocuments` count — page-level
breakdown list lengths do not enter it, so it can differ from
`movies + tv + radio`. -/
theorem c6_total_amended (s : String) (page limit : Nat) (yf : Option Int)
    (sb : String) (r : TMDBSearchResponse) (docs : List RadioDoc) (c : Int)
    (resp : SearchResponse) (calls : List SearchCall)
    (hq : ¬(jsTrim s).length < 2)
    (h : searchRoute (some s) "all" page limit yf sb (.ok r) (.ok docs) (.ok c) =
      (.ok resp, calls)) :
    resp.total = jsNumOr r.total_results 0 + c := by
  rw [searchRoute_ok_all s page limit yf sb r docs c hq] at h
  simp only [Prod.mk.injEq, SearchOutcome.ok.injEq] at h
  obtain ⟨hresp, -⟩ := h
  subst hresp
  simp [assembleSearch]

theorem c6_total_amended_witness :
    demoC6Resp.total = jsNumOr demoOneMovieTotalFive.total_results 0 + 0 :=
  c6_total_amended "ab" 1 20 none "popularity" demoOneMovieTotalFive [] 0 demoC6Resp
    [SearchCall.tmdbSearch, SearchCall.radioFind, SearchCall.radioCount]
    (by decide) (by decide)

/-- C8: for every aggregated search over all kinds, the merged result list
is ordered according to the selected comparator — `rating` descending with
missing ratings treated as 0 (and on movies rated [3,9] with a tv show
rated [5] the merged ratings come out [9,5,3]), `year` descending with
missing years treated as 0, `title` case-insensitively ascending, and
`popularity` descending with radio stations contributing their listener
count as their popularity value. -/
theorem c8_sort_comparators :
    (∀ q page limit yf t rd rc resp calls,
      searchRoute q "all" page limit yf "rating" t rd rc = (.ok resp, calls) →
      resp.results.Pairwise (fun a b => jsNumOr b.rating 0 ≤ jsNumOr a.rating 0)) ∧
    outcomeRatings (searchRoute (some "ab") "all" 1 20 none "rating"
      (.ok demoRatingResponse) (.ok []) (.ok 0)).1 = some [some 9, some 5, some 3] ∧
    (∀ q page limit yf t rd rc resp calls,
      searchRoute q "all" page limit yf "year" t rd rc = (.ok resp, calls) →
      resp.results.Pairwise (fun a b => jsNumOr b.year 0 ≤ jsNumOr a.year 0)) ∧
    (∀ q page limit yf t rd rc resp calls,
      searchRoute q "all" page limit yf "title" t rd rc = (.ok resp, calls) →
      resp.results.Pairwise (fun a b =>
        (jsStrOr a.title "").toLower ≤ (jsStrOr b.title "").toLower)) ∧
    (∀ q page limit yf t rd rc resp calls,
      searchRoute q "all" page limit yf "popularity" t rd rc = (.ok resp, calls) →
      resp.results.Pairwise (fun a b =>
        jsNumOr b.popularity (jsNumOr b.listeners 0) ≤
          jsNumOr a.popularity (jsNumOr a.listeners 0))) := by
  refine ⟨?_, ?_, ?_, ?_, ?_⟩
  · intro q page limit yf t rd rc resp calls h
    exact (searchRoute_ok_results_sorted h).imp (fun hab => searchCmp_rating_le hab)
  · rfl
  · intro q page limit yf t rd rc resp calls h
    exact (searchRoute_ok_results_sorted h).imp (fun hab => searchCmp_year_le hab)
  · intro q page limit yf t rd rc resp calls h
    exact (searchRoute_ok_results_sorted h).imp (fun hab => searchCmp_title_le hab)
  · intro q page limit yf t rd rc resp calls h
    exact (searchRoute_ok_results_sorted h).imp (fun hab => searchCmp_popularity_le hab)

theorem c8_sort_comparators_witness :
    demoC8Resp.results.Pairwise (fun a b => jsNumOr b.rating 0 ≤ jsNumOr a.rating 0) :=
  c8_sort_comparators.1 (some "ab") 1 20 none (.ok demoRatingResponse) (.ok []) (.ok 0)
    demoC8Resp [SearchCall.tmdbSearch, SearchCall.radioFind, SearchCall.radioCount]
    (by decide)

/-- C4: a requested content type outside movie/tv/radio is rejected with
`AppError('Invalid content type', 400)` before any store lookup, network
call, upsert, view increment or history append — the effect trace is empty,
so no state is touched. -/
theorem c4_invalid_type_rejected (typ id : String) (store : Option ContentDoc) (now : Int)
    (tmdbDetails : Except Unit TMDBDetails) (ytSearch : Except Unit (List YTItem))
    (upsertRes incViewsRes : Except Unit Unit) (loggedIn : Bool)
    (historyAdd : Except Unit Unit)
    (h1 : typ ≠ "movie") (h2 : typ ≠ "tv") (h3 : typ ≠ "radio") :
    resolveContent typ id store now tmdbDetails ytSearch upsertRes incViewsRes
      loggedIn historyAdd = (.appError "Invalid content type" 400, []) := by
  unfold resolveContent
  simp [h1, h2, h3]

theorem c4_invalid_type_rejected_witness :
    resolveContent "podcast" "42" none 0 (.error ()) (.ok []) (.ok ()) (.ok ())
      false (.ok ()) = (.appError "Invalid content type" 400, []) :=
  c4_invalid_type_rejected "podcast" "42" none 0 (.error ()) (.ok []) (.ok ()) (.ok ())
    false (.ok ()) (by decide) (by decide) (by decide)

/-- C1 counterexample: a persisted movie document exists but its
`cacheExpiry` has elapsed, the TMDB fetch fails, and the handler does not
fall back to the stale document — the outer catch rethrows
`AppError('Failed to fetch movie details', 500)`. -/
theorem c1_stale_fallback_counterexample :
    needsUpdate demoStoredStale 1 = true ∧
    resolveContent "movie" "42" (some demoStoredStale) 1 (.error ()) (.ok []) (.ok ())
      (.ok ()) false (.ok ()) =
      (.appError "Failed to fetch movie details" 500,
        [Effect.storeFind, Effect.tmdbFetch]) := by
  constructor
  · rfl
  · rfl

/-- C1 amended: a persisted document avoids the upstream fetch only while
its `cacheExpiry` has not elapsed — in that case the stored document is
served without any TMDB call; once the document is missing or expired, a
failing adapter fetch propagates as a 500 to the caller even when a stale
persisted document exists. -/
theorem c1_stale_fallback_amended :
    (∀ typ id doc now tmdbDetails ytSearch upsertRes loggedIn,
      (typ = "movie" ∨ typ = "tv") → needsUpdate doc now = false →
      (resolveContent typ id (some doc) now tmdbDetails ytSearch upsertRes (.ok ())
        loggedIn (.ok ())).1 = .ok doc ∧
      Effect.tmdbFetch ∉ (resolveContent typ id (some doc) now tmdbDetails ytSearch
        upsertRes (.ok ()) loggedIn (.ok ())).2) ∧
    (∀ typ id store now ytSearch upsertRes incViewsRes loggedIn historyAdd,
      (typ = "movie" ∨ typ = "tv") →
      (store = none ∨ ∃ doc, store = some doc ∧ needsUpdate doc now = true) →
      resolveContent typ id store now (.error ()) ytSearch upsertRes incViewsRes
        loggedIn historyAdd =
        (.appError ("Failed to fetch " ++ typ ++ " details") 500,
          [Effect.storeFind, Effect.tmdbFetch])) := by
  constructor
  · intro typ id doc now tmdbDetails ytSearch upsertRes loggedIn htyp hfresh
    rcases htyp with rfl | rfl <;>
      · unfold resolveContent
        simp only [hfresh]
        by_cases hst : doc.isStored <;> cases loggedIn <;> simp [hst]
  · intro typ id store now ytSearch upsertRes incViewsRes loggedIn historyAdd htyp hstale
    rcases htyp with rfl | rfl <;> rcases hstale with rfl | ⟨doc, rfl, hdoc⟩ <;>
      · unfold resolveContent
        simp_all

theorem c1_stale_fallback_amended_witness :
    needsUpdate demoStoredFresh 50 = false ∧
    (resolveContent "movie" "7" (some demoStoredFresh) 50 (.error ()) (.ok []) (.ok ())
      (.ok ()) false (.ok ())).1 = .ok demoStoredFresh ∧
    Effect.tmdbFetch ∉ (resolveContent "movie" "7" (some demoStoredFresh) 50 (.error ())
      (.ok []) (.ok ()) (.ok ()) false (.ok ())).2 :=
  ⟨by decide,
    (c1_stale_fallback_amended.1 "movie" "7" demoStoredFresh 50 (.error ()) (.ok [])
      (.ok ()) false (Or.inl rfl) (by decide)).1,
    (c1_stale_fallback_amended.1 "movie" "7" demoStoredFresh 50 (.error ()) (.ok [])
      (.ok ()) false (Or.inl rfl) (by decide)).2⟩

/-- C7 counterexample: with an identical, fully successful resolution of a
persisted movie document, an error in the watch-history append flips the
response from the served document to `AppError('Failed to fetch movie details', 500)`
— the append failure does fail the main response. -/
theorem c7_history_append_counterexample :
    resolveContent "movie" "7" (some demoStoredFresh) 50 (.error ()) (.ok []) (.ok ())
      (.ok ()) true (.error ()) =
      (.appError "Failed to fetch movie details" 500,
        [Effect.storeFind, Effect.incViews, Effect.historyAppend]) ∧
    resolveContent "movie" "7" (some demoStoredFresh) 50 (.error ()) (.ok []) (.ok ())
      (.ok ()) true (.ok ()) =
      (.ok demoStoredFresh,
        [Effect.storeFind, Effect.incViews, Effect.historyAppend]) := by
  constructor
  · rfl
  · rfl

/-- C7 amended: the watch-history append is awaited inside the route's
outer try block, so for an identified user an error raised there reaches
the outer catch and fails the whole request with a 500; the resolved
document is returned only when the append succeeds. -/
theorem c7_history_append_amended :
    (∀ typ id doc now tmdbDetails ytSearch upsertRes,
      (typ = "movie" ∨ typ = "tv") → needsUpdate doc now = false →
      (resolveContent typ id (some doc) now tmdbDetails ytSearch upsertRes (.ok ())
        true (.error ())).1 =
        .appError ("Failed to fetch " ++ typ ++ " details") 500 ∧
      (resolveContent typ id (some doc) now tmdbDetails ytSearch upsertRes (.ok ())
        true (.ok ())).1 = .ok doc) ∧
    (∀ typ id now d ytSearch,
      (typ = "movie" ∨ typ = "tv") →
      (resolveContent typ id none now (.ok d) ytSearch (.ok ()) (.ok ())
        true (.error ())).1 =
        .appError ("Failed to fetch " ++ typ ++ " details") 500) := by
  constructor
  · intro typ id doc now tmdbDetails ytSearch upsertRes htyp hfresh
    rcases htyp with rfl | rfl <;>
      · unfold resolveContent
        simp only [hfresh]
        by_cases hst : doc.isStored <;> simp [hst]
  · intro typ id now d ytSearch htyp
    rcases htyp with rfl | rfl <;>
      · unfold resolveContent
        rcases ytSearch with _ | ts <;> simp [transformDetails, apply_ite]

theorem c7_history_append_amended_witness :
    (resolveContent "movie" "7" (some demoStoredFresh) 50 (.error ()) (.ok []) (.ok ())
      (.ok ()) true (.error ())).1 =
      .appError ("Failed to fetch " ++ "movie" ++ " details") 500 ∧
    (resolveContent "movie" "7" (some demoStoredFresh) 50 (.error ()) (.ok []) (.ok ())
      (.ok ()) true (.ok ())).1 = .ok demoStoredFresh :=
  c7_history_append_amended.1 "movie" "7" demoStoredFresh 50 (.error ()) (.ok [])
    (.ok ()) (Or.inl rfl) (by decide)

/-- C3 counterexample: the RadioBrowser NodeCache drops entries once their
300-second TTL elapses — a value was previously stored for
`popular_stations_5`, the TTL has elapsed by clock 400, the upstream fetch
fails, and `getPopularStations` propagates the failure instead of returning
the previously stored value. -/
theorem c3_cache_fallback_counterexample :
    assocGet demoExpiredRadioCache (RadioKey.popular 5) =
      some { data := [demoCachedStation], timestamp := 0 } ∧
    (300 : Int) ≤ 400 - (0 : Int) ∧
    (getPopularStations 5 demoExpiredRadioCache 400 (.error ())).1 = .error () := by
  refine ⟨rfl, by decide, rfl⟩

/-- C3 amended: the claim holds of `TMDBService.getCachedOrFetch` — a miss
or stale entry triggers a fetch, a failing fetch falls back to the stored
value of any age without dropping it, and the failure propagates exactly
when the key was never cached — but not of the RadioBrowser service's
NodeCache, which evicts entries at TTL expiry so that a later fetch failure
propagates even though a value was once cached for the key. -/
theorem c3_cache_fallback_amended :
    (∀ {α : Type} (cache : List (String × CacheEntry α)) (now ttl : Int) key fetch,
      assocGet cache key = none →
      (getCachedOrFetch cache now ttl key fetch).attempted = true) ∧
    (∀ {α : Type} (cache : List (String × CacheEntry α)) (now ttl : Int) key fetch e,
      assocGet cache key = some e → ttl ≤ now - e.timestamp →
      (getCachedOrFetch cache now ttl key fetch).attempted = true) ∧
    (∀ {α : Type} (cache : List (String × CacheEntry α)) (now ttl : Int) key e,
      assocGet cache key = some e →
      (getCachedOrFetch cache now ttl key (.error ())).result = .ok e.data ∧
      assocGet (getCachedOrFetch cache now ttl key (.error ())).cache key = some e) ∧
    (∀ {α : Type} (cache : List (String × CacheEntry α)) (now ttl : Int) key,
      ((getCachedOrFetch cache now ttl key (.error ())).result = .error () ↔
        assocGet cache key = none)) ∧
    (∀ (key : RadioKey) (limit : Nat) (cache : RadioCache) (now : Int) e,
      assocGet cache key = some e → (300 : Int) ≤ now - e.timestamp →
      (radioListFetch key limit cache now (.error ())).1 = .error () ∧
      (radioListFetch key limit cache now (.error ())).2.2 = true) := by
  refine ⟨?_, ?_, ?_, ?_, ?_⟩
  · intro α cache now ttl key fetch h
    unfold getCachedOrFetch
    rw [h]
    cases fetch <;> rfl
  · intro α cache now ttl key fetch e h hstale
    unfold getCachedOrFetch
    rw [h]
    dsimp only
    have hf : ¬(now - e.timestamp < ttl) := by omega
    rw [if_neg hf]
    cases fetch <;> rfl
  · intro α cache now ttl key e h
    unfold getCachedOrFetch
    rw [h]
    dsimp only
    by_cases hf : now - e.timestamp < ttl
    · rw [if_pos hf]
      exact ⟨rfl, h⟩
    · rw [if_neg hf]
      exact ⟨rfl, h⟩
  · intro α cache now ttl key
    unfold getCachedOrFetch
    cases hg : assocGet cache key with
    | none => simp
    | some e =>
        by_cases hf : now - e.timestamp < ttl <;> simp [hf]
  · intro key limit cache now e h hstale
    unfold radioListFetch nodeCacheGet
    rw [h]
    dsimp only
    have hf : ¬(now - e.timestamp < 300) := by omega
    rw [if_neg hf]
    exact ⟨rfl, rfl⟩

theorem c3_cache_fallback_amended_witness :
    (getCachedOrFetch [("k", (⟨7, 0⟩ : CacheEntry Int))] 1000 300 "k" (.error ())).result =
      .ok 7 ∧
    assocGet (getCachedOrFetch [("k", (⟨7, 0⟩ : CacheEntry Int))] 1000 300 "k"
      (.error ())).cache "k" = some ⟨7, 0⟩ :=
  c3_cache_fallback_amended.2.2.1 [("k", ⟨7, 0⟩)] 1000 300 "k" ⟨7, 0⟩ rfl

theorem processStations_length (stations : List Station) (limit : Nat) :
    (processStations stations limit).length ≤ limit := by
  unfold processStations addStreamQuality
  rw [List.length_map]
  exact List.length_take_le _ _

theorem validStation_spec {t : Station} (h : validStation t = true) :
    ∃ u, t.url_resolved = some u ∧ u ≠ "" ∧ jsTrim u ≠ "" ∧ u ≠ "null" ∧
      jsIncludes u "null" = false := by
  unfold validStation at h
  cases hu : t.url_resolved with
  | none => rw [hu] at h; cases h
  | some u =>
      rw [hu] at h
      simp only [Bool.and_eq_true, decide_eq_true_eq, Bool.not_eq_true'] at h
      exact ⟨u, rfl, h.1.1.1, h.1.1.2, h.1.2, h.2⟩

theorem addStreamQuality_stationOK {t : Station} (h : validStation t = true) :
    stationOK
      { name := t.name, url_resolved := t.url_resolved, bitrate := t.bitrate,
        clickcount := t.clickcount, quality := qualityOf t.bitrate,
        streamUrl := t.url_resolved } := by
  obtain ⟨u, hu, h1, h2, h3, h4⟩ := validStation_spec h
  refine ⟨⟨u, hu, hu, h1, h2, h3, h4⟩, ?_, ?_, ?_⟩ <;>
    · cases hb : t.bitrate with
      | none => simp [qualityOf, jsGtNum]
      | some v =>
          by_cases hv1 : 128 < v <;> by_cases hv2 : 64 < v <;>
            simp [qualityOf, jsGtNum, hv1, hv2] <;> omega

theorem processStations_ok {stations : List Station} {limit : Nat} {s : StationQ}
    (hs : s ∈ processStations stations limit) : stationOK s := by
  unfold processStations addStreamQuality filterValidStations at hs
  obtain ⟨t, ht, rfl⟩ := List.mem_map.1 hs
  have htv : validStation t = true :=
    List.of_mem_filter (List.mem_of_mem_take ht)
  exact addStreamQuality_stationOK htv

theorem nodeCacheGet_some {cache : RadioCache} {now : Int} {key : RadioKey}
    {v : List StationQ} (h : nodeCacheGet cache now key = some v) :
    ∃ e, assocGet cache key = some e ∧ v = e.data := by
  unfold nodeCacheGet at h
  cases hg : assocGet cache key with
  | none => rw [hg] at h; cases h
  | some e =>
      rw [hg] at h
      dsimp only at h
      by_cases hf : now - e.timestamp < 300
      · rw [if_pos hf] at h
        exact ⟨e, rfl, (Option.some.inj h).symm⟩
      · rw [if_neg hf] at h
        cases h

theorem radioListFetch_ok {key : RadioKey} {limit : Nat} {cache : RadioCache}
    {now : Int} {upstream : Except Unit (List Station)} {v : List StationQ}
    {c2 : RadioCache} {att : Bool}
    (hlim : key.keyLimit = limit) (hwf : RadioCacheWF cache)
    (h : radioListFetch key limit cache now upstream = (.ok v, c2, att)) :
    (v.length ≤ limit ∧ ∀ s ∈ v, stationOK s) ∧ RadioCacheWF c2 := by
  unfold radioListFetch at h
  cases hg : nodeCacheGet cache now key with
  | some w =>
      rw [hg] at h
      simp only [Prod.mk.injEq, Except.ok.injEq] at h
      obtain ⟨hv, hc, -⟩ := h
      obtain ⟨e, he, hwe⟩ := nodeCacheGet_some hg
      obtain ⟨stations, hst⟩ := hwf key e he
      have hv2 : v = processStations stations limit := by
        rw [← hv, hwe, hst, hlim]
      constructor
      · rw [hv2]
        exact ⟨processStations_length _ _, fun s hs => processStations_ok hs⟩
      · rw [← hc]
        exact hwf
  | none =>
      rw [hg] at h
      cases upstream with
      | error er => simp at h
      | ok stations =>
          simp only [Prod.mk.injEq, Except.ok.injEq] at h
          obtain ⟨hv, hc, -⟩ := h
          constructor
          · rw [← hv]
            exact ⟨processStations_length _ _, fun s hs => processStations_ok hs⟩
          · rw [← hc]
            intro k e hk
            unfold assocSet at hk
            unfold assocGet at hk
            by_cases hkk : key = k
            · rw [if_pos hkk] at hk
              refine ⟨stations, ?_⟩
              rw [← Option.some.inj hk]
              rw [← hkk, hlim, hv]
            · rw [if_neg hkk] at hk
              rw [assocGet_filter_ne _ key k (fun hh => hkk hh.symm)] at hk
              exact hwf k e hk

/-- C9: every station returned by the four radio listing operations has a
resolved stream URL that is non-empty (also after trimming), is not the
string "null" and does not contain "null", carries `streamUrl` equal to
that URL, and carries a quality tag that is `high` exactly when
`bitrate > 128`, `medium` exactly when `64 < bitrate ≤ 128` and `low`
otherwise; each operation returns at most `limit` stations, and the
operations preserve the cache's well-formedness. -/
theorem c9_station_invariants :
    (∀ stations limit, (processStations stations limit).length ≤ limit ∧
      ∀ s ∈ processStations stations limit, stationOK s) ∧
    (∀ limit cache now upstream v c2 att, RadioCacheWF cache →
      getPopularStations limit cache now upstream = (.ok v, c2, att) →
      (v.length ≤ limit ∧ ∀ s ∈ v, stationOK s) ∧ RadioCacheWF c2) ∧
    (∀ countryCode limit cache now upstream v c2 att, RadioCacheWF cache →
      getStationsByCountry countryCode limit cache now upstream = (.ok v, c2, att) →
      (v.length ≤ limit ∧ ∀ s ∈ v, stationOK s) ∧ RadioCacheWF c2) ∧
    (∀ tag limit cache now upstream v c2 att, RadioCacheWF cache →
      getStationsByGenre tag limit cache now upstream = (.ok v, c2, att) →
      (v.length ≤ limit ∧ ∀ s ∈ v, stationOK s) ∧ RadioCacheWF c2) ∧
    (∀ query limit cache now upstream v c2 att, RadioCacheWF cache →
      searchStations query limit cache now upstream = (.ok v, c2, att) →
      (v.length ≤ limit ∧ ∀ s ∈ v, stationOK s) ∧ RadioCacheWF c2) := by
  refine ⟨?_, ?_, ?_, ?_, ?_⟩
  · intro stations limit
    exact ⟨processStations_length _ _, fun s hs => processStations_ok hs⟩
  · intro limit cache now upstream v c2 att hwf h
    unfold getPopularStations at h
    exact @radioListFetch_ok (.popular limit) limit cache now upstream v c2 att rfl hwf h
  · intro countryCode limit cache now upstream v c2 att hwf h
    unfold getStationsByCountry at h
    exact @radioListFetch_ok (.country countryCode limit) limit cache now upstream v c2 att
      rfl hwf h
  · intro tag limit cache now upstream v c2 att hwf h
    unfold getStationsByGenre at h
    exact @radioListFetch_ok (.genre tag limit) limit cache now upstream v c2 att rfl hwf h
  · intro query limit cache now upstream v c2 att hwf h
    unfold searchStations at h
    exact @radioListFetch_ok (.search query limit) limit cache now upstream v c2 att rfl hwf h

theorem c9_station_invariants_witness :
    ((processStations demoStations 2).length ≤ 2 ∧
      ∀ s ∈ processStations demoStations 2, stationOK s) ∧
    RadioCacheWF (assocSet [] (RadioKey.popular 2)
      { data := processStations demoStations 2, timestamp := 0 }) :=
  c9_station_invariants.2.1 2 [] 0 (.ok demoStations)
    (processStations demoStations 2)
    (assocSet [] (RadioKey.popular 2) { data := processStations demoStations 2, timestamp := 0 })
    true
    (fun k e hk => absurd hk (by simp [assocGet]))
    rfl

end Streamora
